import Mathlib

/-
Verification of the location-sharing service core (app.py and its Directory).
The transport handlers are embedded from src/src/app.py; the Directory (Db)
operations are modelled from the specification, because db.py is not part of
the provided sources.  Request arguments arrive as `Option String`: `none`
models an absent query parameter, and the empty string models a present but
empty one (both are falsy in the source's presence checks).
-/

set_option autoImplicit false

namespace LocShare

/-- A location payload: a tagged variant, either GPS coordinates or an
indoor-formatted record.  The two GPS fields are floating-point in the
source but are carried opaquely (stored and returned, never computed on),
so they are modelled as integers. -/
inductive Location where
  | gps (lat lon : Int)
  | indoor (building room : String)
deriving DecidableEq, Repr

/-- A user record: friend set (as a list of names), optional most-recent
location, and the location-sharing toggle. -/
structure User where
  friends : List String
  location : Option Location
  available : Bool
deriving DecidableEq, Repr

/-- Default toggle state for a new user.  The source leaves the default
implicit; the spec recommends sharing ON by default.  No claim below
depends on this value. -/
def defaultAvailable : Bool := true

/-- The record a freshly created user receives: empty friend set, no
location, toggle in the default state. -/
def defaultUser : User :=
  { friends := [], location := none, available := defaultAvailable }

/-- The Directory state: an association list from user names to records
(the first binding for a name is authoritative, matching dict semantics). -/
abbrev Dir := List (String × User)

/-- Look up a user record by name in the Directory. -/
def findUserS : Dir → String → Option User
  | [], _ => none
  | (k, u) :: rest, n => if k = n then some u else findUserS rest n

/-- Look up a user record by an optional name: an absent name matches no
stored user (a None key is never present in the store). -/
def findUser (d : Dir) (name : Option String) : Option User :=
  match name with
  | none => none
  | some n => findUserS d n

/-- Replace the record stored under a name (every binding with that key,
matching dict update semantics; keys are unique in reachable states). -/
def updateUserS : Dir → String → User → Dir
  | [], _, _ => []
  | (k, u) :: rest, n, v =>
    if k = n then (k, v) :: updateUserS rest n v
    else (k, u) :: updateUserS rest n v

/-- Modelled from the spec: db.py (the Db class) is not under src/.
addUser(name) creates a new user if the name is non-empty and not already
present (empty friend set, no location, default toggle); returns false if
the user already exists. -/
def Db.add_user (d : Dir) (name : String) : Bool × Dir :=
  if name.isEmpty then (false, d)
  else
    match findUserS d name with
    | some _ => (false, d)
    | none => (true, (name, defaultUser) :: d)

/-- Modelled from the spec: db.py is not under src/.
addFriend(user, friend) fails if the user does not exist; otherwise it
mutates the user's friend set to include the friend.  No check that the
friend itself exists. -/
def Db.add_friend (d : Dir) (user friend : String) : Bool × Dir :=
  match findUserS d user with
  | none => (false, d)
  | some u =>
    if friend ∈ u.friends then (true, d)
    else (true, updateUserS d user { u with friends := friend :: u.friends })

/-- Modelled from the spec: db.py is not under src/.
deleteFriend(user, friend) succeeds iff the user exists and the friend is
currently in the user's friend set, removing the edge; otherwise it fails. -/
def Db.delete_friend (d : Dir) (user friend : String) : Bool × Dir :=
  match findUserS d user with
  | none => (false, d)
  | some u =>
    if friend ∈ u.friends then
      (true, updateUserS d user
        { u with friends := u.friends.filter (fun g => g != friend) })
    else (false, d)

/-- Modelled from the spec: db.py is not under src/.
setLocation(user, location) fails if the user does not exist; otherwise it
overwrites the user's stored location.  An absent name matches no user. -/
def Db.set_location (d : Dir) (name : Option String) (loc : Location) :
    Bool × Dir :=
  match name with
  | none => (false, d)
  | some n =>
    match findUserS d n with
    | none => (false, d)
    | some u => (true, updateUserS d n { u with location := some loc })

/-- Modelled from the spec: db.py is not under src/.
getLocation(user) returns the stored location, or absent if the user or
the location does not exist. -/
def Db.get_location (d : Dir) (name : Option String) : Option Location :=
  (findUser d name).bind (fun u => u.location)

/-- Modelled from the spec: db.py is not under src/.
getFriendsList(user) returns absent if the user does not exist, else the
current friend set. -/
def Db.get_friends_list (d : Dir) (name : Option String) :
    Option (List String) :=
  (findUser d name).map (fun u => u.friends)

/-- Modelled from the spec: db.py is not under src/.
locationAvailable(user) returns absent if the user does not exist, else the
current toggle state. -/
def Db.location_available (d : Dir) (name : Option String) : Option Bool :=
  (findUser d name).map (fun u => u.available)

/-- Modelled from the spec: db.py is not under src/.
toggle(user) fails if the user does not exist; otherwise it flips the
sharing toggle. -/
def Db.toggle (d : Dir) (name : String) : Bool × Dir :=
  match findUserS d name with
  | none => (false, d)
  | some u => (true, updateUserS d name { u with available := !u.available })

/-- Outcome of a handler, abstracting the HTTP responses of app.py:
each constructor corresponds to one distinct response of the source. -/
inductive ApiResult where
  | okConfirmation
  | okLocation (loc : Location)
  | missingParameter
  | alreadyExists
  | noSuchUser
  | edgeNotFound
  | accessDeniedToggleOff
  | accessDeniedNotAuthorized
deriving DecidableEq, Repr

/-- Embedded from app.py, add_user (lines 44-67): reject a falsy
user_name, then delegate to db.add_user; an existing user yields the
already-exists failure. -/
def add_user (d : Dir) (user_name : Option String) : ApiResult × Dir :=
  match user_name with
  | none => (ApiResult.missingParameter, d)
  | some n =>
    if n.isEmpty then (ApiResult.missingParameter, d)
    else
      let r := Db.add_user d n
      if r.1 then (ApiResult.okConfirmation, r.2)
      else (ApiResult.alreadyExists, r.2)

/-- Embedded from app.py, add_friend (lines 70-95): reject if either
name is falsy, then delegate to db.add_friend; failure means the user
does not exist. -/
def add_friend (d : Dir) (user_name friend_name : Option String) :
    ApiResult × Dir :=
  match user_name, friend_name with
  | some un, some fn =>
    if un.isEmpty || fn.isEmpty then (ApiResult.missingParameter, d)
    else
      let r := Db.add_friend d un fn
      if r.1 then (ApiResult.okConfirmation, r.2)
      else (ApiResult.noSuchUser, r.2)
  | _, _ => (ApiResult.missingParameter, d)

/-- Embedded from app.py, delete_friend (lines 98-123): reject if either
name is falsy, then delegate to db.delete_friend; failure means the edge
does not exist. -/
def delete_friend (d : Dir) (user_name friend_name : Option String) :
    ApiResult × Dir :=
  match user_name, friend_name with
  | some un, some fn =>
    if un.isEmpty || fn.isEmpty then (ApiResult.missingParameter, d)
    else
      let r := Db.delete_friend d un fn
      if r.1 then (ApiResult.okConfirmation, r.2)
      else (ApiResult.edgeNotFound, r.2)
  | _, _ => (ApiResult.missingParameter, d)

/-- Embedded from app.py, register (lines 126-148): no presence check on
user_name; delegate directly to db.set_location and map failure to the
no-such-user response. -/
def register (d : Dir) (user_name : Option String) (location : Location) :
    ApiResult × Dir :=
  let r := Db.set_location d user_name location
  if r.1 then (ApiResult.okConfirmation, r.2)
  else (ApiResult.noSuchUser, r.2)

/-- Embedded from app.py, lookup_loc (lines 152-193): reject a falsy
friend_name; fetch the requester's friend list (absent means no such
user); deny if the requester's own toggle is explicitly false; deny if
the friend is not in the list; fetch the friend's location (absent means
no such user); otherwise return the location. -/
def lookup_loc (d : Dir) (user_name friend_name : Option String) :
    ApiResult × Dir :=
  match friend_name with
  | none => (ApiResult.missingParameter, d)
  | some fn =>
    if fn.isEmpty then (ApiResult.missingParameter, d)
    else
      match Db.get_friends_list d user_name with
      | none => (ApiResult.noSuchUser, d)
      | some friends_list =>
        if Db.location_available d user_name = some false then
          (ApiResult.accessDeniedToggleOff, d)
        else if fn ∉ friends_list then
          (ApiResult.accessDeniedNotAuthorized, d)
        else
          match Db.get_location d (some fn) with
          | none => (ApiResult.noSuchUser, d)
          | some loc => (ApiResult.okLocation loc, d)

/-- Embedded from app.py, toggle_loc (lines 196-217): reject a falsy
user_name, then delegate to db.toggle; failure means the user does not
exist. -/
def toggle_loc (d : Dir) (user_name : Option String) : ApiResult × Dir :=
  match user_name with
  | none => (ApiResult.missingParameter, d)
  | some n =>
    if n.isEmpty then (ApiResult.missingParameter, d)
    else
      let r := Db.toggle d n
      if r.1 then (ApiResult.okConfirmation, r.2)
      else (ApiResult.noSuchUser, r.2)

/-- Setting one user's toggle to a given value, leaving every other field
and every other user untouched; a no-op on names with no record.  Used to
state that the target's toggle cannot influence a lookup. -/
def setAvailable : Dir → String → Bool → Dir
  | [], _, _ => []
  | (k, u) :: rest, n, b =>
    if k = n then (k, { u with available := b }) :: setAvailable rest n b
    else (k, u) :: setAvailable rest n b

/-- The directory reached by the spec scenario: create alice and bob,
then addFriend(alice, bob). -/
def demoDir : Dir :=
  (add_friend (add_user (add_user [] (some "alice")).2 (some "bob")).2
    (some "alice") (some "bob")).2

/-- Looking up the updated name after an update returns the new record
exactly when the name was present before. -/
theorem findUserS_update_self (d : Dir) (n : String) (v : User) :
    findUserS (updateUserS d n v) n = (findUserS d n).map (fun _ => v) := by
  induction d with
  | nil => simp [findUserS, updateUserS]
  | cons p rest ih =>
    obtain ⟨k, u⟩ := p
    by_cases hk : k = n
    · simp [findUserS, updateUserS, hk]
    · simp [findUserS, updateUserS, hk, ih]

/-- Updating one name leaves every other name's record unchanged. -/
theorem findUserS_update_ne (d : Dir) (n m : String) (v : User)
    (h : m ≠ n) :
    findUserS (updateUserS d n v) m = findUserS d m := by
  induction d with
  | nil => simp [findUserS, updateUserS]
  | cons p rest ih =>
    obtain ⟨k, u⟩ := p
    by_cases hk : k = n
    · subst hk
      simp [findUserS, updateUserS, Ne.symm h, ih]
    · by_cases hm : k = m
      · simp [findUserS, updateUserS, hk, hm, h]
      · simp [findUserS, updateUserS, hk, hm, ih]

/-- Characterisation of lookups after setting one user's toggle. -/
theorem findUserS_setAvailable (d : Dir) (n : String) (b : Bool)
    (m : String) :
    findUserS (setAvailable d n b) m =
      if m = n then (findUserS d m).map (fun u => { u with available := b })
      else findUserS d m := by
  induction d with
  | nil => simp [findUserS, setAvailable]
  | cons p rest ih =>
    obtain ⟨k, u⟩ := p
    by_cases hk : k = n
    · subst hk
      by_cases hm : k = m
      · subst hm
        simp [findUserS, setAvailable]
      · simp [findUserS, setAvailable, hm, ih]
    · by_cases hm : k = m
      · subst hm
        simp [findUserS, setAvailable, hk, Ne.symm hk]
      · simp [findUserS, setAvailable, hk, hm, ih]

/-- Setting a toggle does not change any friend list. -/
theorem get_friends_list_setAvailable (d : Dir) (n : String) (b : Bool)
    (x : Option String) :
    Db.get_friends_list (setAvailable d n b) x = Db.get_friends_list d x := by
  match x with
  | none => rfl
  | some m =>
    simp only [Db.get_friends_list, findUser, findUserS_setAvailable]
    by_cases hm : m = n
    · subst hm
      cases findUserS d m <;> simp
    · simp [hm]

/-- Setting a toggle does not change any stored location. -/
theorem get_location_setAvailable (d : Dir) (n : String) (b : Bool)
    (x : Option String) :
    Db.get_location (setAvailable d n b) x = Db.get_location d x := by
  match x with
  | none => rfl
  | some m =>
    simp only [Db.get_location, findUser, findUserS_setAvailable]
    by_cases hm : m = n
    · subst hm
      cases findUserS d m <;> simp
    · simp [hm]

/-- Setting one user's toggle does not change any other user's toggle. -/
theorem location_available_setAvailable_ne (d : Dir) (n : String) (b : Bool)
    (m : String) (h : m ≠ n) :
    Db.location_available (setAvailable d n b) (some m) =
      Db.location_available d (some m) := by
  simp [Db.location_available, findUser, findUserS_setAvailable, h]

/-- A non-empty name has a false isEmpty flag. -/
theorem isEmpty_false_of_ne (n : String) (h : n ≠ "") : n.isEmpty = false := by
  rcases he : n.isEmpty with _ | _
  · rfl
  · exact absurd (String.isEmpty_iff n |>.mp he) h

/-- Claim C10: the lookup operation is read-only: for every requester,
target and Directory state, lookup_loc returns the Directory unchanged on
the success path and on every failure path. -/
theorem lookup_read_only (d : Dir) (u t : Option String) :
    (lookup_loc d u t).2 = d := by
  unfold lookup_loc
  rcases t with _ | fn
  · rfl
  · dsimp only
    split
    · rfl
    · split
      · rfl
      · split
        · rfl
        · split
          · rfl
          · split <;> rfl

/-- Claim C9: the register-location handler performs no presence check on
the user name: with an absent user name it delegates to the store and
surfaces the no-such-user failure, for any location payload, never the
missing-parameter failure. -/
theorem register_no_presence_check (d : Dir) (loc : Location) :
    register d none loc = (ApiResult.noSuchUser, d) ∧
    (register d none loc).1 ≠ ApiResult.missingParameter :=
  ⟨rfl, by simp [register, Db.set_location]⟩

/-- Claim C7: for every existing user and every location value of either
variant, setLocation succeeds and a subsequent getLocation returns exactly
the stored value. -/
theorem set_get_location_roundtrip (d : Dir) (n : String) (L : Location)
    (ru : User) (h : findUserS d n = some ru) :
    (Db.set_location d (some n) L).1 = true ∧
    Db.get_location (Db.set_location d (some n) L).2 (some n) = some L := by
  simp only [Db.set_location, h]
  refine ⟨trivial, ?_⟩
  simp [Db.get_location, findUser, findUserS_update_self, h]

/-- Witness for C7: in the scenario directory, a GPS and an indoor
location each round-trip through setLocation and getLocation. -/
theorem set_get_location_roundtrip_witness :
    (findUserS demoDir "bob" = some defaultUser) ∧
    ((Db.set_location demoDir (some "bob") (Location.gps 3 4)).1 = true ∧
      Db.get_location (Db.set_location demoDir (some "bob")
        (Location.gps 3 4)).2 (some "bob") = some (Location.gps 3 4)) ∧
    ((Db.set_location demoDir (some "bob")
        (Location.indoor "eng" "1400")).1 = true ∧
      Db.get_location (Db.set_location demoDir (some "bob")
        (Location.indoor "eng" "1400")).2 (some "bob") =
        some (Location.indoor "eng" "1400")) :=
  ⟨by decide,
   set_get_location_roundtrip demoDir "bob" (Location.gps 3 4) defaultUser
     (by decide),
   set_get_location_roundtrip demoDir "bob" (Location.indoor "eng" "1400")
     defaultUser (by decide)⟩

/-- Claim C8: applying toggle twice to an existing user restores the whole
observable directory, in particular the user's sharing state; toggling a
nonexistent user fails (at the store: false, at the handler: the
no-such-user response) and changes nothing. -/
theorem toggle_involution (d : Dir) (n : String) (hn : n ≠ "") :
    (∀ ru, findUserS d n = some ru →
      ∀ m, findUserS (Db.toggle (Db.toggle d n).2 n).2 m = findUserS d m) ∧
    (findUserS d n = none →
      Db.toggle d n = (false, d) ∧
      toggle_loc d (some n) = (ApiResult.noSuchUser, d)) := by
  constructor
  · intro ru h m
    obtain ⟨d1, hd1⟩ : ∃ d1, (Db.toggle d n).2 = d1 := ⟨_, rfl⟩
    rw [hd1]
    have h1 : d1 = updateUserS d n { ru with available := !ru.available } := by
      rw [← hd1]
      simp [Db.toggle, h]
    have h2 : findUserS d1 n =
        some { ru with available := !ru.available } := by
      rw [h1, findUserS_update_self, h]
      rfl
    have h3 : (Db.toggle d1 n).2 =
        updateUserS d1 n { ru with available := !(!ru.available) } := by
      simp [Db.toggle, h2]
    by_cases hm : m = n
    · subst hm
      rw [h3, findUserS_update_self, h2, h]
      simp [Bool.not_not]
    · rw [h3, findUserS_update_ne _ _ _ _ hm, h1,
        findUserS_update_ne _ _ _ _ hm]
  · intro h
    have hne : n.isEmpty = false := isEmpty_false_of_ne n hn
    refine ⟨by simp [Db.toggle, h], ?_⟩
    simp [toggle_loc, hne, Db.toggle, h]

/-- Witness for C8: instantiating the toggle theorem for alice (existing)
in the scenario directory and for a stranger (nonexistent). -/
theorem toggle_involution_witness :
    (findUserS demoDir "zzz" = none ∧
      Db.toggle demoDir "zzz" = (false, demoDir) ∧
      toggle_loc demoDir (some "zzz") = (ApiResult.noSuchUser, demoDir)) ∧
    (findUserS (Db.toggle (Db.toggle demoDir "alice").2 "alice").2 "alice" =
      findUserS demoDir "alice") := by
  have hz := (toggle_involution demoDir "zzz" (by decide)).2 (by decide)
  have ha := (toggle_involution demoDir "alice" (by decide)).1
    { defaultUser with friends := ["bob"] } (by decide) "alice"
  exact ⟨⟨by decide, hz.1, hz.2⟩, ha⟩

/-- Claim C6: adding a user with an absent or empty name fails with the
missing-parameter error; the first addUser of a fresh non-empty name
succeeds and creates the default record; once the name is present, any
addUser of it fails with already-exists and leaves the Directory
unchanged. -/
theorem add_user_spec (d : Dir) (n : String) (hn : n ≠ "") :
    (add_user d none = (ApiResult.missingParameter, d)) ∧
    (add_user d (some "") = (ApiResult.missingParameter, d)) ∧
    (findUserS d n = none →
      (add_user d (some n)).1 = ApiResult.okConfirmation ∧
      findUserS (add_user d (some n)).2 n = some defaultUser) ∧
    (∀ ru, findUserS d n = some ru →
      add_user d (some n) = (ApiResult.alreadyExists, d)) := by
  have hne : n.isEmpty = false := isEmpty_false_of_ne n hn
  refine ⟨rfl, rfl, ?_, ?_⟩
  · intro h
    simp [add_user, hne, Db.add_user, h, findUserS]
  · intro ru h
    simp [add_user, hne, Db.add_user, h]

/-- Witness for C6: starting from an empty directory, the first addUser
of alice succeeds and creates the record, and a second addUser of alice
fails with already-exists, leaving the state unchanged. -/
theorem add_user_spec_witness :
    ((add_user ([] : Dir) (some "alice")).1 = ApiResult.okConfirmation ∧
      findUserS (add_user ([] : Dir) (some "alice")).2 "alice" =
        some defaultUser) ∧
    (add_user (add_user ([] : Dir) (some "alice")).2 (some "alice") =
      (ApiResult.alreadyExists, (add_user ([] : Dir) (some "alice")).2)) := by
  have h1 := (add_user_spec ([] : Dir) "alice" (by decide)).2.2.1 (by decide)
  have h2 := (add_user_spec (add_user ([] : Dir) (some "alice")).2 "alice"
    (by decide)).2.2.2 defaultUser (by decide)
  exact ⟨h1, h2⟩

/-- Claim C4: addFriend fails with no-such-user exactly when the acting
user does not exist; when the user exists the add succeeds and the friend
is in the resulting friend list, with no check that the friend exists. -/
theorem add_friend_no_such_user (d : Dir) (u f : String)
    (hu : u ≠ "") (hf : f ≠ "") :
    ((add_friend d (some u) (some f)).1 = ApiResult.noSuchUser ↔
      findUserS d u = none) ∧
    (∀ ru, findUserS d u = some ru →
      (add_friend d (some u) (some f)).1 = ApiResult.okConfirmation ∧
      ∃ fl, Db.get_friends_list (add_friend d (some u) (some f)).2 (some u) =
        some fl ∧ f ∈ fl) := by
  have hue : u.isEmpty = false := isEmpty_false_of_ne u hu
  have hfe : f.isEmpty = false := isEmpty_false_of_ne f hf
  constructor
  · rcases hfind : findUserS d u with _ | ru
    · simp [add_friend, hue, hfe, Db.add_friend, hfind]
    · by_cases hmem : f ∈ ru.friends <;>
        simp [add_friend, hue, hfe, Db.add_friend, hfind, hmem]
  · intro ru hfind
    by_cases hmem : f ∈ ru.friends
    · refine ⟨by simp [add_friend, hue, hfe, Db.add_friend, hfind, hmem], ?_⟩
      refine ⟨ru.friends, ?_, hmem⟩
      simp [add_friend, hue, hfe, Db.add_friend, hfind, hmem,
        Db.get_friends_list, findUser]
    · refine ⟨by simp [add_friend, hue, hfe, Db.add_friend, hfind, hmem], ?_⟩
      refine ⟨f :: ru.friends, ?_, List.mem_cons_self f ru.friends⟩
      simp [add_friend, hue, hfe, Db.add_friend, hfind, hmem,
        Db.get_friends_list, findUser, findUserS_update_self]

/-- Witness for C4: in the scenario directory, alice may befriend the
nonexistent name ghost; the add succeeds and the edge appears. -/
theorem add_friend_no_such_user_witness :
    (findUserS demoDir "ghost" = none) ∧
    ((add_friend demoDir (some "ghost") (some "bob")).1 =
        ApiResult.noSuchUser ↔ findUserS demoDir "ghost" = none) ∧
    ((add_friend demoDir (some "alice") (some "ghost")).1 =
        ApiResult.okConfirmation ∧
      ∃ fl, Db.get_friends_list
          (add_friend demoDir (some "alice") (some "ghost")).2
          (some "alice") = some fl ∧ "ghost" ∈ fl) := by
  have h1 := (add_friend_no_such_user demoDir "ghost" "bob"
    (by decide) (by decide)).1
  have h2 := (add_friend_no_such_user demoDir "alice" "ghost"
    (by decide) (by decide)).2 { defaultUser with friends := ["bob"] }
    (by decide)
  exact ⟨by decide, h1, h2⟩

/-- Claim C5: deleteFriend succeeds exactly when the user exists and the
friend is currently in the user's friend set; in every other case it
fails with edge-not-found and leaves the Directory unchanged; a success
removes exactly that edge: the friend is gone from the set, every other
member stays, and every other user's record is untouched. -/
theorem delete_friend_spec (d : Dir) (u f : String)
    (hu : u ≠ "") (hf : f ≠ "") :
    ((delete_friend d (some u) (some f)).1 = ApiResult.okConfirmation ↔
      ∃ ru, findUserS d u = some ru ∧ f ∈ ru.friends) ∧
    ((delete_friend d (some u) (some f)).1 ≠ ApiResult.okConfirmation →
      delete_friend d (some u) (some f) = (ApiResult.edgeNotFound, d)) ∧
    (∀ ru, findUserS d u = some ru → f ∈ ru.friends →
      findUserS (delete_friend d (some u) (some f)).2 u =
        some { ru with friends := ru.friends.filter (fun g => g != f) } ∧
      f ∉ ru.friends.filter (fun g => g != f) ∧
      (∀ g, g ≠ f →
        (g ∈ ru.friends.filter (fun g => g != f) ↔ g ∈ ru.friends)) ∧
      (∀ m, m ≠ u →
        findUserS (delete_friend d (some u) (some f)).2 m =
          findUserS d m)) := by
  have hue : u.isEmpty = false := isEmpty_false_of_ne u hu
  have hfe : f.isEmpty = false := isEmpty_false_of_ne f hf
  refine ⟨?_, ?_, ?_⟩
  · rcases hfind : findUserS d u with _ | ru
    · simp [delete_friend, hue, hfe, Db.delete_friend, hfind]
    · by_cases hmem : f ∈ ru.friends <;>
        simp [delete_friend, hue, hfe, Db.delete_friend, hfind, hmem]
  · intro hne
    rcases hfind : findUserS d u with _ | ru
    · simp [delete_friend, hue, hfe, Db.delete_friend, hfind]
    · by_cases hmem : f ∈ ru.friends
      · exact absurd (by simp [delete_friend, hue, hfe, Db.delete_friend,
          hfind, hmem]) hne
      · simp [delete_friend, hue, hfe, Db.delete_friend, hfind, hmem]
  · intro ru hfind hmem
    refine ⟨?_, ?_, ?_, ?_⟩
    · simp [delete_friend, hue, hfe, Db.delete_friend, hfind, hmem,
        findUserS_update_self]
    · simp [List.mem_filter]
    · intro g hg
      simp [List.mem_filter, hg]
    · intro m hm
      simp only [delete_friend, hue, hfe, Bool.or_self, Db.delete_friend,
        hfind, hmem, if_true, if_false, Bool.false_eq_true]
      simp [findUserS_update_ne _ _ _ _ hm]

/-- Witness for C5: in the scenario directory, deleting the alice-bob
edge succeeds, removes bob from alice's friend list, and a deletion for
a missing edge fails with edge-not-found leaving the state unchanged. -/
theorem delete_friend_spec_witness :
    ((delete_friend demoDir (some "alice") (some "bob")).1 =
        ApiResult.okConfirmation ↔
      ∃ ru, findUserS demoDir "alice" = some ru ∧ "bob" ∈ ru.friends) ∧
    (delete_friend demoDir (some "bob") (some "alice") =
      (ApiResult.edgeNotFound, demoDir)) := by
  have h1 := (delete_friend_spec demoDir "alice" "bob"
    (by decide) (by decide)).1
  have h2 := (delete_friend_spec demoDir "bob" "alice"
    (by decide) (by decide)).2.1 (by decide)
  exact ⟨h1, h2⟩

/-- Claim C1: lookup evaluates its checks in order, the first failing
check deciding the outcome: absent or empty target gives
missing-parameter; then an absent requester friend list gives
no-such-user; then a requester toggle that is explicitly false gives the
toggle-off denial; then a target outside the friend list gives the
not-authorized denial; then an absent target location gives no-such-user;
otherwise the stored location of the target is returned. -/
theorem lookup_order (d : Dir) (u : Option String) (t : String)
    (ht : t ≠ "") :
    ((lookup_loc d u none).1 = ApiResult.missingParameter) ∧
    ((lookup_loc d u (some "")).1 = ApiResult.missingParameter) ∧
    (Db.get_friends_list d u = none →
      (lookup_loc d u (some t)).1 = ApiResult.noSuchUser) ∧
    (∀ fl, Db.get_friends_list d u = some fl →
      Db.location_available d u = some false →
      (lookup_loc d u (some t)).1 = ApiResult.accessDeniedToggleOff) ∧
    (∀ fl, Db.get_friends_list d u = some fl →
      Db.location_available d u ≠ some false →
      t ∉ fl →
      (lookup_loc d u (some t)).1 = ApiResult.accessDeniedNotAuthorized) ∧
    (∀ fl, Db.get_friends_list d u = some fl →
      Db.location_available d u ≠ some false →
      t ∈ fl →
      Db.get_location d (some t) = none →
      (lookup_loc d u (some t)).1 = ApiResult.noSuchUser) ∧
    (∀ fl loc, Db.get_friends_list d u = some fl →
      Db.location_available d u ≠ some false →
      t ∈ fl →
      Db.get_location d (some t) = some loc →
      (lookup_loc d u (some t)).1 = ApiResult.okLocation loc) := by
  have hte : t.isEmpty = false := isEmpty_false_of_ne t ht
  refine ⟨rfl, rfl, ?_, ?_, ?_, ?_, ?_⟩
  · intro h
    simp [lookup_loc, hte, h]
  · intro fl hfl hav
    simp [lookup_loc, hte, hfl, hav]
  · intro fl hfl hav hmem
    simp [lookup_loc, hte, hfl, hav, hmem]
  · intro fl hfl hav hmem hloc
    simp [lookup_loc, hte, hfl, hav, hmem, hloc]
  · intro fl loc hfl hav hmem hloc
    simp [lookup_loc, hte, hfl, hav, hmem, hloc]

/-- Witness for C1: the spec scenario: alice and bob are created, bob is
added as alice's friend, and a lookup of bob by alice before any location
is set yields no-such-user, bob having no stored location. -/
theorem lookup_order_witness :
    Db.get_friends_list demoDir (some "alice") = some ["bob"] ∧
    Db.location_available demoDir (some "alice") ≠ some false ∧
    "bob" ∈ ["bob"] ∧
    Db.get_location demoDir (some "bob") = none ∧
    (lookup_loc demoDir (some "alice") (some "bob")).1 =
      ApiResult.noSuchUser := by
  have h := (lookup_order demoDir (some "alice") "bob"
    (by decide)).2.2.2.2.2.1 ["bob"] (by decide) (by decide) (by decide)
    (by decide)
  exact ⟨by decide, by decide, by decide, by decide, h⟩

/-- Claim C2: the toggle consulted by lookup is the requester's own: when
the requester exists and their toggle is explicitly false, the lookup is
denied with the toggle-off reason whatever the rest of the state holds;
and overwriting the target's toggle (target distinct from requester)
never changes the outcome of the lookup. -/
theorem lookup_checks_requester_toggle (d : Dir) (r t : String)
    (ht : t ≠ "") :
    (∀ fl, Db.get_friends_list d (some r) = some fl →
      Db.location_available d (some r) = some false →
      (lookup_loc d (some r) (some t)).1 = ApiResult.accessDeniedToggleOff) ∧
    (r ≠ t → ∀ b,
      (lookup_loc (setAvailable d t b) (some r) (some t)).1 =
        (lookup_loc d (some r) (some t)).1) := by
  have hte : t.isEmpty = false := isEmpty_false_of_ne t ht
  constructor
  · intro fl hfl hav
    simp [lookup_loc, hte, hfl, hav]
  · intro hrt b
    have hg := get_friends_list_setAvailable d t b (some r)
    have ha := location_available_setAvailable_ne d t b r hrt
    have hl := get_location_setAvailable d t b (some t)
    cases hfl : Db.get_friends_list d (some r) with
    | none => simp [lookup_loc, hte, hg, hfl]
    | some fl =>
      by_cases hav : Db.location_available d (some r) = some false
      · simp [lookup_loc, hte, hg, hfl, ha, hav]
      · by_cases hmem : t ∈ fl
        · cases hloc : Db.get_location d (some t) with
          | none =>
            simp [lookup_loc, hte, hg, hfl, ha, hav, hmem, hl, hloc]
          | some loc =>
            simp [lookup_loc, hte, hg, hfl, ha, hav, hmem, hl, hloc]
        · simp [lookup_loc, hte, hg, hfl, ha, hav, hmem]

/-- Witness for C2: alice with sharing toggled off is denied the lookup
of her friend bob even though bob has a location, and flipping bob's
toggle does not change any outcome of that lookup. -/
theorem lookup_checks_requester_toggle_witness :
    (Db.get_friends_list
        (setAvailable (register demoDir (some "bob")
          (Location.gps 1 2)).2 "alice" false) (some "alice") =
      some ["bob"]) ∧
    ((lookup_loc (setAvailable (register demoDir (some "bob")
          (Location.gps 1 2)).2 "alice" false)
        (some "alice") (some "bob")).1 = ApiResult.accessDeniedToggleOff) ∧
    ((lookup_loc (setAvailable demoDir "bob" false)
        (some "alice") (some "bob")).1 =
      (lookup_loc demoDir (some "alice") (some "bob")).1) := by
  have h1 := (lookup_checks_requester_toggle
    (setAvailable (register demoDir (some "bob") (Location.gps 1 2)).2
      "alice" false) "alice" "bob" (by decide)).1 ["bob"]
    (by decide) (by decide)
  have h2 := (lookup_checks_requester_toggle demoDir "alice" "bob"
    (by decide)).2 (by decide) false
  exact ⟨by decide, h1, h2⟩

/-- Counterexample to C3 as stated: with an empty directory, an absent
requester name and target bob, the lookup fails with no-such-user, not
with missing-parameter: the handler never presence-checks the requester
name. -/
theorem lookup_missing_requester_counterexample :
    lookup_loc ([] : Dir) none (some "bob") = (ApiResult.noSuchUser, []) ∧
    (lookup_loc ([] : Dir) none (some "bob")).1 ≠
      ApiResult.missingParameter := by
  exact ⟨by decide, by decide⟩

/-- Claim C3 amended: only an absent or empty target friend name yields
the missing-parameter error; an absent requester name is not
presence-checked and instead surfaces as no-such-user through the
absent-friend-list path. -/
theorem lookup_missing_parameter_amended (d : Dir) (u : Option String)
    (t : String) (ht : t ≠ "") :
    ((lookup_loc d u none).1 = ApiResult.missingParameter) ∧
    ((lookup_loc d u (some "")).1 = ApiResult.missingParameter) ∧
    ((lookup_loc d none (some t)).1 = ApiResult.noSuchUser) := by
  have hte : t.isEmpty = false := isEmpty_false_of_ne t ht
  refine ⟨rfl, rfl, ?_⟩
  simp [lookup_loc, hte, Db.get_friends_list, findUser]

/-- Witness for the amended C3: concrete instances of the three branches
over the scenario directory. -/
theorem lookup_missing_parameter_amended_witness :
    ((lookup_loc demoDir (some "alice") none).1 =
      ApiResult.missingParameter) ∧
    ((lookup_loc demoDir (some "alice") (some "")).1 =
      ApiResult.missingParameter) ∧
    ((lookup_loc demoDir none (some "bob")).1 = ApiResult.noSuchUser) :=
  lookup_missing_parameter_amended demoDir (some "alice") "bob" (by decide)

end LocShare
